import Mathlib

/-!
Verification development for `examples/vfgn/train.py`: the training / rollout
evaluation script of the VFGN learned particle simulator.

The shallow embedding below translates the script's loss shaping
(lines 383-490), the rollout evaluation loop of `Test` (lines 622-707),
the training-loop skeleton of `Train` (lines 318-507), the dataset input
function (lines 219-254) and the `main` dispatch (lines 710-714) into
executable Lean definitions.  Tensors over particles become lists; real
scalars become `ℚ` (all arithmetic used by the claims is exact:
`LOSS_DECAY_FACTOR = 0.6 = 3/5`); the external `LearnedSimulator` model is an
abstract function parameter.
-/

namespace VFGN

/-- A per-particle position (or acceleration) vector: a list of coordinates. -/
abbrev Pos := List ℚ

/-- train.py line 96. -/
def INPUT_SEQUENCE_LENGTH : Nat := 5

/-- train.py line 97. -/
def PREDICT_LENGTH : Nat := 1

/-- train.py line 98: `LOSS_DECAY_FACTOR = 0.6`. -/
def LOSS_DECAY_FACTOR : ℚ := 6 / 10

/-- train.py line 100. -/
def NUM_PARTICLE_TYPES : Nat := 3

/-- train.py line 101: `KINEMATIC_PARTICLE_ID = 0` ("refers to anchor point"). -/
def KINEMATIC_PARTICLE_ID : Nat := 0

/-- train.py line 102. -/
def METAL_PARTICLE_ID : Nat := 2

/-- train.py line 103: `ANCHOR_PLANE_PARTICLE_ID = 1` ("refers to anchor plane"). -/
def ANCHOR_PLANE_PARTICLE_ID : Nat := 1

/-- Modelled from the spec: `utils.get_kinematic_mask` lives in
`modulus.utils.vfgn`, which is not under `src/`.  Per the spec glossary
("Kinematic particle: a particle type whose position is externally driven
(not predicted) and therefore excluded from the loss") together with the
constant `KINEMATIC_PARTICLE_ID = 0` declared in train.py, the mask is true
exactly for particles whose type equals `KINEMATIC_PARTICLE_ID`. -/
def get_kinematic_mask (types : List Nat) : List Bool :=
  types.map (fun t => t == KINEMATIC_PARTICLE_ID)

/-- Modelled from the spec: `utils.get_anchor_z_mask` lives in
`modulus.utils.vfgn`, which is not under `src/`.  Per the constant
`ANCHOR_PLANE_PARTICLE_ID = 1` ("refers to anchor plane") declared in
train.py, the mask is true exactly for anchor-plane particles, i.e. those
whose type equals `ANCHOR_PLANE_PARTICLE_ID`. -/
def get_anchor_z_mask (types : List Nat) : List Bool :=
  types.map (fun t => t == ANCHOR_PLANE_PARTICLE_ID)

/-- train.py lines 340, 394: `torch.logical_not(utils.get_kinematic_mask(particle_types))`. -/
def non_kinematic_mask (types : List Nat) : List Bool :=
  (get_kinematic_mask types).map (fun b => !b)

/-- train.py line 385:
`decay_fators_1 = [math.pow(LOSS_DECAY_FACTOR, i) for i in range(PREDICT_LENGTH)]`. -/
def decay_fators_1 : List ℚ :=
  (List.range PREDICT_LENGTH).map (fun i => LOSS_DECAY_FACTOR ^ i)

/-- `torch.repeat_interleave(xs, repeats=r)`: each element repeated `r` times in place. -/
def repeat_interleave (r : Nat) (xs : List ℚ) : List ℚ :=
  (xs.map (fun x => List.replicate r x)).flatten

/-- train.py line 386: `decay_fators_3 = torch.repeat_interleave(decay_fators_1, repeats=3)`. -/
def decay_fators_3 : List ℚ :=
  repeat_interleave 3 decay_fators_1

/-- train.py lines 383-389, restricted to one particle (one row of the
`[num_nodes, input_dim]` tensor):
`loss = (pred - target) ** 2; loss = loss * decay_fators_3; loss = torch.sum(loss, dim=-1)`. -/
def per_particle_loss (p t : Pos) : ℚ :=
  (List.zipWith (· * ·) (List.zipWith (fun a b => (a - b) ^ 2) p t) decay_fators_3).sum

/-- The masking pattern shared by all loss variants (train.py 397-398, 408-410,
466-467, 480-481, 489-490):
`loss = torch.where(mask, loss, zeros); loss = torch.sum(loss) / torch.sum(mask)`.
`torch.sum` of a boolean mask is its number of `true` entries. -/
def masked_mean (mask : List Bool) (vals : List ℚ) : ℚ :=
  (List.zipWith (fun m v => if m then v else 0) mask vals).sum / (mask.count true : ℚ)

namespace Train

/-- train.py lines 485-490 (the `else` / standard branch); also the masked
squared-error component shared by the anchor (394-398), correlation (464-467)
and me (478-481) branches. -/
def loss_standard (types : List Nat) (pred target : List Pos) : ℚ :=
  masked_mean (non_kinematic_mask types) (List.zipWith per_particle_loss pred target)

/-- train.py lines 400-410: `loss_plane = pred_acceleration[..., 2] ** 2`,
multiplied by `decay_fator = [LOSS_DECAY_FACTOR ** i for i in range(1)]`
(a length-1 tensor, broadcast over particles), masked by the anchor-plane
mask and averaged over anchor-plane particles. -/
def loss_plane (types : List Nat) (pred : List Pos) : ℚ :=
  let lp := pred.map (fun p => (p.getD 2 0) ^ 2)
  let decay_fator := (List.range 1).map (fun i => LOSS_DECAY_FACTOR ^ i)
  masked_mean (get_anchor_z_mask types) (lp.map (fun v => v * decay_fator.headD 1))

/-- train.py lines 391-413: the `anchor` loss. -/
def loss_anchor (types : List Nat) (pred target : List Pos) (l_plane : ℚ) : ℚ :=
  loss_standard types pred target + l_plane * loss_plane types pred

/-- Total number of scalar entries of a `[num_nodes, dim]` tensor. -/
def numel (xss : List Pos) : Nat := (xss.map List.length).sum

/-- `torch.nn.functional.l1_loss` with its default `reduction="mean"`:
the mean absolute difference over all scalar entries. -/
def l1_loss (pred target : List Pos) : ℚ :=
  (List.zipWith (fun p t => (List.zipWith (fun a b => |a - b|) p t).sum) pred target).sum
    / (numel pred : ℚ)

/-- Row-wise multiplication by `decay_fators_3` (`pred_acceleration * decay_fators_3`,
train.py line 416). -/
def scale_rows (xss : List Pos) : List Pos :=
  xss.map (fun r => List.zipWith (· * ·) r decay_fators_3)

/-- train.py lines 415-418: the `anchor_me` loss adds
`l_me * l1_loss(pred * decay_fators_3, target * decay_fators_3)` to the anchor loss. -/
def loss_anchor_me (types : List Nat) (pred target : List Pos) (l_plane l_me : ℚ) : ℚ :=
  loss_anchor types pred target l_plane + l_me * l1_loss (scale_rows pred) (scale_rows target)

/-- train.py lines 471-483: the `me` loss.  `loss_l1` (a scalar) is broadcast-
multiplied by `decay_fators_3` and then summed over the last dimension
(lines 475-476), then added with weight `l_me` to the masked squared error. -/
def loss_me (types : List Nat) (pred target : List Pos) (l_me : ℚ) : ℚ :=
  loss_standard types pred target
    + l_me * (decay_fators_3.map (fun d => l1_loss pred target * d)).sum

/-- train.py lines 436-469: the `correlation` loss.  The random-pair
cosine-similarity term (built with `random.choices`, divided by `k ** 2`) is
parameterized as `loss_corr`; `loss_corr_factor = 1` (line 445). -/
def loss_correlation (types : List Nat) (pred target : List Pos) (loss_corr : ℚ) : ℚ :=
  loss_standard types pred target + 1 * loss_corr

end Train

/-- The masked squared-error term as the claims phrase it: the per-particle
squared-error term is replaced by zero wherever the particle type equals
`KINEMATIC_PARTICLE_ID`, and the sum is divided by the number of particles
whose type is not `KINEMATIC_PARTICLE_ID`. -/
def spec_masked_sq (types : List Nat) (pred target : List Pos) : ℚ :=
  (List.zipWith (fun ty v => if ty = KINEMATIC_PARTICLE_ID then (0 : ℚ) else v) types
      (List.zipWith per_particle_loss pred target)).sum
    / ((types.filter (fun ty => ty != KINEMATIC_PARTICLE_ID)).length : ℚ)

theorem count_true_map {α : Type _} (f : α → Bool) (l : List α) :
    (l.map f).count true = (l.filter f).length := by
  induction l with
  | nil => rfl
  | cons a l ih => cases h : f a <;> simp [List.count_cons, List.filter_cons, h, ih]

theorem masked_mean_non_kinematic (types : List Nat) (vals : List ℚ) :
    masked_mean (non_kinematic_mask types) vals
      = (List.zipWith (fun ty v => if ty = KINEMATIC_PARTICLE_ID then (0 : ℚ) else v) types
            vals).sum
        / ((types.filter (fun ty => ty != KINEMATIC_PARTICLE_ID)).length : ℚ) := by
  have hmask : non_kinematic_mask types
      = types.map (fun ty => ty != KINEMATIC_PARTICLE_ID) := by
    simp only [non_kinematic_mask, get_kinematic_mask, List.map_map]
    rfl
  have hfun : ∀ (ty : Nat) (v : ℚ),
      (if (ty != KINEMATIC_PARTICLE_ID) then v else 0)
        = (if ty = KINEMATIC_PARTICLE_ID then (0 : ℚ) else v) := by
    intro ty v
    by_cases h : ty = KINEMATIC_PARTICLE_ID <;> simp [h]
  rw [masked_mean, hmask, List.zipWith_map_left, count_true_map]
  congr 1
  have : (fun (ty : Nat) (v : ℚ) => if (ty != KINEMATIC_PARTICLE_ID) then v else 0)
      = (fun (ty : Nat) (v : ℚ) => if ty = KINEMATIC_PARTICLE_ID then (0 : ℚ) else v) := by
    funext ty v
    exact hfun ty v
  rw [this]

/-- C1: For every training step that reaches the loss computation, in the
`standard`, `anchor`, `anchor_me`, `me` and `correlation` loss variants the
per-particle squared-error term is replaced by zero wherever the particle is
kinematic (type `KINEMATIC_PARTICLE_ID`), and its sum is divided by the number
of non-kinematic particles only; each variant's total loss is that masked mean
plus its variant-specific extra term. -/
theorem kinematic_excluded_from_loss (types : List Nat) (pred target : List Pos)
    (l_plane l_me loss_corr : ℚ) :
    Train.loss_standard types pred target = spec_masked_sq types pred target ∧
    Train.loss_anchor types pred target l_plane
      = spec_masked_sq types pred target + l_plane * Train.loss_plane types pred ∧
    Train.loss_anchor_me types pred target l_plane l_me
      = spec_masked_sq types pred target + l_plane * Train.loss_plane types pred
        + l_me * Train.l1_loss (Train.scale_rows pred) (Train.scale_rows target) ∧
    Train.loss_me types pred target l_me
      = spec_masked_sq types pred target
        + l_me * (decay_fators_3.map (fun d => Train.l1_loss pred target * d)).sum ∧
    Train.loss_correlation types pred target loss_corr
      = spec_masked_sq types pred target + loss_corr := by
  have h : Train.loss_standard types pred target = spec_masked_sq types pred target := by
    rw [Train.loss_standard, spec_masked_sq, masked_mean_non_kinematic]
  refine ⟨h, ?_, ?_, ?_, ?_⟩
  · rw [Train.loss_anchor, h]
  · rw [Train.loss_anchor_me, Train.loss_anchor, h]
  · rw [Train.loss_me, h]
  · rw [Train.loss_correlation, h, one_mul]

/-- The anchor-plane term as claim C4 phrases it: the mean, over particles of
type `ANCHOR_PLANE_PARTICLE_ID`, of the squared z-component (index 2) of the
predicted acceleration. -/
def spec_plane_mean (types : List Nat) (pred : List Pos) : ℚ :=
  (List.zipWith
      (fun ty p => if ty = ANCHOR_PLANE_PARTICLE_ID then ((p.getD 2 0) ^ 2 : ℚ) else 0)
      types pred).sum
    / ((types.filter (fun ty => ty == ANCHOR_PLANE_PARTICLE_ID)).length : ℚ)

theorem zipWith_ext {α β γ : Type _} (f g : α → β → γ) (h : ∀ a b, f a b = g a b) :
    ∀ (l1 : List α) (l2 : List β), List.zipWith f l1 l2 = List.zipWith g l1 l2 := by
  intro l1
  induction l1 with
  | nil => intro l2; rfl
  | cons a l1 ih =>
      intro l2
      cases l2 with
      | nil => rfl
      | cons b l2 => simp [List.zipWith_cons_cons, h a b, ih l2]

theorem loss_plane_eq_spec (types : List Nat) (pred : List Pos) :
    Train.loss_plane types pred = spec_plane_mean types pred := by
  rw [Train.loss_plane, masked_mean, spec_plane_mean, get_anchor_z_mask, count_true_map]
  congr 1
  rw [List.map_map, List.zipWith_map]
  refine congrArg List.sum (zipWith_ext _ _ ?_ types pred)
  intro ty p
  by_cases h : ty = ANCHOR_PLANE_PARTICLE_ID <;>
    simp [h, Function.comp, show List.range 1 = [0] from rfl]

/-- C4: the `anchor` loss equals the kinematic-masked mean of the
decay-weighted squared acceleration error over non-kinematic particles, plus
`l_plane` times the mean over anchor-plane particles (type
`ANCHOR_PLANE_PARTICLE_ID`) of the squared z-component of the predicted
acceleration; the `anchor_me` loss additionally adds `l_me` times the L1 loss
of the decay-weighted accelerations. -/
theorem anchor_loss_shape (types : List Nat) (pred target : List Pos) (l_plane l_me : ℚ) :
    Train.loss_anchor types pred target l_plane
      = spec_masked_sq types pred target + l_plane * spec_plane_mean types pred ∧
    Train.loss_anchor_me types pred target l_plane l_me
      = spec_masked_sq types pred target + l_plane * spec_plane_mean types pred
        + l_me * Train.l1_loss (Train.scale_rows pred) (Train.scale_rows target) := by
  have h : Train.loss_anchor types pred target l_plane
      = spec_masked_sq types pred target + l_plane * spec_plane_mean types pred := by
    rw [Train.loss_anchor, Train.loss_standard, spec_masked_sq, masked_mean_non_kinematic,
      loss_plane_eq_spec]
  exact ⟨h, by rw [Train.loss_anchor_me, h]⟩

/-- C5: the per-particle loss multiplies the squared acceleration error of
prediction step `i` by `LOSS_DECAY_FACTOR ^ i = 0.6 ^ i`, the factor repeated
across the 3 spatial coordinates, before summing over the coordinates. -/
theorem decay_weighting (p t : Pos)
    (hp : p.length = 3 * PREDICT_LENGTH) (ht : t.length = 3 * PREDICT_LENGTH) :
    per_particle_loss p t
      = ∑ i ∈ Finset.range PREDICT_LENGTH, ∑ c ∈ Finset.range 3,
          LOSS_DECAY_FACTOR ^ i * (p.getD (3 * i + c) 0 - t.getD (3 * i + c) 0) ^ 2 := by
  have hp3 : p.length = 3 := by simpa [PREDICT_LENGTH] using hp
  have ht3 : t.length = 3 := by simpa [PREDICT_LENGTH] using ht
  obtain ⟨a, b, c, rfl⟩ := List.length_eq_three.mp hp3
  obtain ⟨d, e, f, rfl⟩ := List.length_eq_three.mp ht3
  simp [per_particle_loss, decay_fators_3, decay_fators_1, repeat_interleave,
    PREDICT_LENGTH, Finset.sum_range_succ, show List.range 1 = [0] from rfl]
  ring

/-- Witness for C5 at a concrete particle. -/
theorem decay_weighting_witness :
    ([(1 : ℚ), 2, 3].length = 3 * PREDICT_LENGTH
        ∧ [(0 : ℚ), 0, 1].length = 3 * PREDICT_LENGTH)
    ∧ per_particle_loss [(1 : ℚ), 2, 3] [(0 : ℚ), 0, 1]
        = ∑ i ∈ Finset.range PREDICT_LENGTH, ∑ c ∈ Finset.range 3,
            LOSS_DECAY_FACTOR ^ i
              * (List.getD [(1 : ℚ), 2, 3] (3 * i + c) 0
                  - List.getD [(0 : ℚ), 0, 1] (3 * i + c) 0) ^ 2 :=
  ⟨⟨by decide, by decide⟩, decay_weighting _ _ (by decide) (by decide)⟩

/-- One trajectory of the rollout dataset, as produced by
`prepare_rollout_inputs` (train.py 160-178) and converted in
`GraphDataset.__next__`: `position` is indexed `[particle][time step]`. -/
structure Features where
  position : List (List Pos)
  particle_type : List Nat
  step_context : List ℚ

namespace Test

/-- train.py line 622: `initial_positions = features.position[:, :INPUT_SEQUENCE_LENGTH]`. -/
def initial_positions (position : List (List Pos)) : List (List Pos) :=
  position.map (List.take INPUT_SEQUENCE_LENGTH)

/-- train.py line 623: `ground_truth_positions = features.position[:, INPUT_SEQUENCE_LENGTH:]`. -/
def ground_truth_positions (position : List (List Pos)) : List (List Pos) :=
  position.map (List.drop INPUT_SEQUENCE_LENGTH)

/-- train.py line 660: `positions_ground_truth = ground_truth_positions[:, step]`:
the ground-truth position of every particle at rollout step `k`. -/
def gt_at (position : List (List Pos)) (k : Nat) : List Pos :=
  (ground_truth_positions position).map (fun traj => traj.getD k [])

/-- train.py line 628: `num_steps = ground_truth_positions.shape[1]` (the
common trajectory length after the initial window, read off the first
particle in the list embedding). -/
def rollout_num_steps (position : List (List Pos)) : Nat :=
  ((position.headD []).drop INPUT_SEQUENCE_LENGTH).length

/-- `torch.where(mask, a, b)` selecting whole per-particle rows: train.py
lines 663-666 repeat the per-particle kinematic mask across the 3 position
coordinates before `torch.where`, so each particle's entire position row is
selected from `a` (mask true) or `b` (mask false). -/
def where3 {α : Type _} : List Bool → List α → List α → List α
  | m :: ms, g :: gs, p :: ps => (if m then g else p) :: where3 ms gs ps
  | _, _, _ => []

/-- train.py line 666:
`next_position = torch.where(kinematic_mask, positions_ground_truth, predict_positions)`. -/
def next_position (kin : List Bool) (gtk predk : List Pos) : List Pos :=
  where3 kin gtk predk

/-- The rollout loop state (train.py 630-674): `rollout_window model position
kin rollout_refine k` is `current_positions` just before rollout step `k`.
`model k w` abstracts
`model.inference(position_sequence=w, global_context=..., ...)[:, 0].squeeze(1)`
at step `k` (the external `LearnedSimulator`): the per-particle predicted next
position.  With `rollout_refine = False` the masked prediction
`next_position` is appended (line 671); with `rollout_refine = True` the
ground-truth step is appended instead (line 674); either way the oldest time
step `current_positions[:, 0]` is dropped. -/
def rollout_window (model : Nat → List (List Pos) → List Pos)
    (position : List (List Pos)) (kin : List Bool) (rollout_refine : Bool) :
    Nat → List (List Pos)
  | 0 => initial_positions position
  | k + 1 =>
      let w := rollout_window model position kin rollout_refine k
      let nxt := next_position kin (gt_at position k) (model k w)
      List.zipWith (fun wi x => wi.drop 1 ++ [x]) w
        (if rollout_refine then gt_at position k else nxt)

/-- The position emitted for rollout step `k` and appended to
`updated_predictions` (train.py 659-668): the model's prediction on the
current window, with kinematic particles overridden by ground truth. -/
def emitted (model : Nat → List (List Pos) → List Pos)
    (position : List (List Pos)) (kin : List Bool) (rollout_refine : Bool) (k : Nat) :
    List Pos :=
  next_position kin (gt_at position k)
    (model k (rollout_window model position kin rollout_refine k))

/-- train.py lines 631, 668, 676: the stacked `updated_predictions`, one entry
per rollout step, in step order. -/
def updated_predictions (model : Nat → List (List Pos) → List Pos)
    (position : List (List Pos)) (kin : List Bool) (rollout_refine : Bool) (n : Nat) :
    List (List Pos) :=
  (List.range n).map (emitted model position kin rollout_refine)

end Test

/-- C2: with `rollout_refine` disabled (the rollout configuration), the
evaluation is autoregressive: the model's input position window for rollout
step `k+1` is the step-`k` window with its oldest time step dropped and the
step-`k` emitted position (the model's own output for step `k`, after
kinematic masking) appended as the newest time step. -/
theorem rollout_autoregressive (model : Nat → List (List Pos) → List Pos)
    (position : List (List Pos)) (kin : List Bool) (k : Nat) :
    Test.rollout_window model position kin false (k + 1)
      = List.zipWith (fun w x => w.drop 1 ++ [x])
          (Test.rollout_window model position kin false k)
          (Test.emitted model position kin false k) := by
  rw [Test.rollout_window, Test.emitted]
  simp

theorem where3_getD {α : Type _} (d : α) :
    ∀ (m : List Bool) (g p : List α) (i : Nat), i < m.length → i < g.length → i < p.length →
      (Test.where3 m g p).getD i d
        = if m.getD i false then g.getD i d else p.getD i d := by
  intro m
  induction m with
  | nil => intro g p i h1 _ _; exact absurd h1 (by simp)
  | cons mb ms ih =>
      intro g p i h1 h2 h3
      cases g with
      | nil => exact absurd h2 (by simp)
      | cons gb gs =>
          cases p with
          | nil => exact absurd h3 (by simp)
          | cons pb ps =>
              cases i with
              | zero => simp [Test.where3]
              | succ i =>
                  simp only [Test.where3, List.getD_cons_succ]
                  exact ih gs ps i (by simpa using h1) (by simpa using h2) (by simpa using h3)

/-- C3: at every rollout step, the emitted next position of every particle
with a true kinematic mask equals the ground-truth position for that step,
and the emitted next position of every other particle equals the model's
predicted position for that step. -/
theorem kinematic_externally_driven (model : Nat → List (List Pos) → List Pos)
    (position : List (List Pos)) (kin : List Bool) (rollout_refine : Bool) (k i : Nat)
    (h1 : i < kin.length) (h2 : i < (Test.gt_at position k).length)
    (h3 : i < (model k (Test.rollout_window model position kin rollout_refine k)).length) :
    (Test.emitted model position kin rollout_refine k).getD i []
      = if kin.getD i false then (Test.gt_at position k).getD i []
        else (model k (Test.rollout_window model position kin rollout_refine k)).getD i [] := by
  rw [Test.emitted, Test.next_position]
  exact where3_getD [] kin _ _ i h1 h2 h3

/-- Witness for C3: one particle (kinematic), a 6-step trajectory, a model
that predicts `[9]`; the emitted position is the ground-truth `[6]`. -/
theorem kinematic_externally_driven_witness :
    (0 < [true].length
        ∧ 0 < (Test.gt_at [[[(0 : ℚ)], [0], [0], [0], [0], [6]]] 0).length
        ∧ 0 < ((fun (_ : Nat) (_ : List (List Pos)) => [[(9 : ℚ)]]) 0
            (Test.rollout_window (fun _ _ => [[(9 : ℚ)]])
              [[[(0 : ℚ)], [0], [0], [0], [0], [6]]] [true] false 0)).length)
    ∧ (Test.emitted (fun _ _ => [[(9 : ℚ)]])
          [[[(0 : ℚ)], [0], [0], [0], [0], [6]]] [true] false 0).getD 0 []
        = if List.getD [true] 0 false
          then (Test.gt_at [[[(0 : ℚ)], [0], [0], [0], [0], [6]]] 0).getD 0 []
          else ((fun (_ : Nat) (_ : List (List Pos)) => [[(9 : ℚ)]]) 0
              (Test.rollout_window (fun _ _ => [[(9 : ℚ)]])
                [[[(0 : ℚ)], [0], [0], [0], [0], [6]]] [true] false 0)).getD 0 [] :=
  ⟨⟨by decide, by decide, by decide⟩,
    kinematic_externally_driven (fun _ _ => [[(9 : ℚ)]])
      [[[(0 : ℚ)], [0], [0], [0], [0], [6]]] [true] false 0 0
      (by decide) (by decide) (by decide)⟩

theorem mem_of_mem_zipWith {α β γ : Type _} {f : α → β → γ} :
    ∀ {l1 : List α} {l2 : List β} {x : γ}, x ∈ List.zipWith f l1 l2 →
      ∃ a ∈ l1, ∃ b ∈ l2, x = f a b := by
  intro l1
  induction l1 with
  | nil => intro l2 x h; simp at h
  | cons a l1 ih =>
      intro l2 x h
      cases l2 with
      | nil => simp at h
      | cons b l2 =>
          rw [List.zipWith_cons_cons, List.mem_cons] at h
          rcases h with h | h
          · exact ⟨a, by simp, b, by simp, h⟩
          · obtain ⟨a2, ha, b2, hb, hx⟩ := ih h
            exact ⟨a2, by simp [ha], b2, by simp [hb], hx⟩

/-- C7: if every particle's trajectory holds at least `INPUT_SEQUENCE_LENGTH`
time steps, then before every rollout step (hence at every model invocation)
every particle's position window has exactly `INPUT_SEQUENCE_LENGTH = 5` time
steps, whether the predicted or the ground-truth position was appended. -/
theorem window_length_invariant (model : Nat → List (List Pos) → List Pos)
    (position : List (List Pos)) (kin : List Bool) (rollout_refine : Bool)
    (hlen : ∀ traj ∈ position, INPUT_SEQUENCE_LENGTH ≤ traj.length)
    (k : Nat) (w : List Pos)
    (hw : w ∈ Test.rollout_window model position kin rollout_refine k) :
    w.length = INPUT_SEQUENCE_LENGTH := by
  induction k generalizing w with
  | zero =>
      simp only [Test.rollout_window, Test.initial_positions, List.mem_map] at hw
      obtain ⟨traj, htraj, rfl⟩ := hw
      simpa using Nat.min_eq_left (hlen traj htraj)
  | succ k ih =>
      rw [Test.rollout_window] at hw
      obtain ⟨a, ha, b, _, rfl⟩ := mem_of_mem_zipWith hw
      have hal : a.length = INPUT_SEQUENCE_LENGTH := ih a ha
      simp [List.length_drop, hal, INPUT_SEQUENCE_LENGTH]

/-- Witness for C7: one particle with a 6-step trajectory; the window before
rollout step 1 has exactly `INPUT_SEQUENCE_LENGTH` entries. -/
theorem window_length_invariant_witness :
    (∀ traj ∈ [[[(0 : ℚ)], [0], [0], [0], [0], [6]]],
        INPUT_SEQUENCE_LENGTH ≤ List.length traj)
    ∧ List.length [[(0 : ℚ)], [0], [0], [0], [9]] = INPUT_SEQUENCE_LENGTH :=
  ⟨by decide,
    window_length_invariant (fun _ _ => [[(9 : ℚ)]])
      [[[(0 : ℚ)], [0], [0], [0], [0], [6]]] [false] false
      (by decide) 1 [[(0 : ℚ)], [0], [0], [0], [9]] (by decide)⟩

/-- A JSON value appearing in the rollout artifact. -/
inductive JVal where
  | posArr (x : List (List Pos))
  | intArr (x : List Nat)
  | ctxArr (x : List ℚ)
  | metaObj (x : List (String × String))
deriving DecidableEq

namespace Test

/-- train.py lines 686-698: the `rollout_op` dict written as JSON, in key
insertion order; `metadata` (external `_read_metadata` output, opaque here)
is added after the first five keys. -/
def rollout_op (model : Nat → List (List Pos) → List Pos)
    (metadata : List (String × String)) (rollout_refine : Bool) (f : Features) :
    List (String × JVal) :=
  let kin := get_kinematic_mask f.particle_type
  [("initial_positions", JVal.posArr (initial_positions f.position)),
   ("predicted_rollout", JVal.posArr
      (updated_predictions model f.position kin rollout_refine
        (rollout_num_steps f.position))),
   ("ground_truth_rollout", JVal.posArr (ground_truth_positions f.position)),
   ("particle_types", JVal.intArr f.particle_type),
   ("global_context", JVal.ctxArr f.step_context),
   ("metadata", JVal.metaObj metadata)]

/-- train.py line 699: `filename = f"rollout_(eval_split)_(example_index).json"`. -/
def rollout_filename (eval_split : String) (example_index : Nat) : String :=
  "rollout_" ++ eval_split ++ "_" ++ toString example_index ++ ".json"

/-- train.py line 700: `os.path.join(FLAGS.output_path, filename)` for a
relative `filename`. -/
def joinPath (dir filename : String) : String := dir ++ "/" ++ filename

/-- train.py lines 588-707: the per-trajectory loop of `Test`, carrying
`example_index` (which starts at 0 and is incremented once per trajectory,
lines 588 and 706); each trajectory produces one `(path, rollout_op)` file. -/
def runFrom (model : Nat → List (List Pos) → List Pos)
    (metadata : List (String × String)) (eval_split output_path : String)
    (rollout_refine : Bool) :
    Nat → List Features → List (String × List (String × JVal))
  | _, [] => []
  | i, f :: rest =>
      (joinPath output_path (rollout_filename eval_split i),
        rollout_op model metadata rollout_refine f)
        :: runFrom model metadata eval_split output_path rollout_refine (i + 1) rest

/-- The files written by `Test` over the whole evaluation dataset. -/
def run (model : Nat → List (List Pos) → List Pos)
    (metadata : List (String × String)) (eval_split output_path : String)
    (rollout_refine : Bool) (examples : List Features) :
    List (String × List (String × JVal)) :=
  runFrom model metadata eval_split output_path rollout_refine 0 examples

theorem runFrom_map_fst (model : Nat → List (List Pos) → List Pos)
    (metadata : List (String × String)) (eval_split output_path : String)
    (rollout_refine : Bool) :
    ∀ (examples : List Features) (i : Nat),
      (runFrom model metadata eval_split output_path rollout_refine i examples).map
          Prod.fst
        = (List.range examples.length).map
            (fun k => joinPath output_path (rollout_filename eval_split (i + k))) := by
  intro examples
  induction examples with
  | nil => intro i; rfl
  | cons f rest ih =>
      intro i
      rw [runFrom, List.map_cons, ih (i + 1), List.length_cons,
        List.range_succ_eq_map, List.map_cons, List.map_map]
      refine congrArg₂ List.cons (by rw [Nat.add_zero]) ?_
      refine List.map_congr_left ?_
      intro k _
      simp only [Function.comp_apply]
      have h : i + 1 + k = i + Nat.succ k := by omega
      rw [h]

theorem runFrom_map_snd (model : Nat → List (List Pos) → List Pos)
    (metadata : List (String × String)) (eval_split output_path : String)
    (rollout_refine : Bool) :
    ∀ (examples : List Features) (i : Nat),
      (runFrom model metadata eval_split output_path rollout_refine i examples).map
          Prod.snd
        = examples.map (rollout_op model metadata rollout_refine) := by
  intro examples
  induction examples with
  | nil => intro i; rfl
  | cons f rest ih => intro i; rw [runFrom, List.map_cons, ih (i + 1), List.map_cons]

/-- C6: for every trajectory, `Test` writes one JSON artifact at
`output_path/rollout_<eval_split>_<example_index>.json` (index = position of
the trajectory in the dataset); its top-level object has exactly the keys
`initial_positions`, `predicted_rollout`, `ground_truth_rollout`,
`particle_types`, `global_context`, `metadata`; `initial_positions` holds the
first `INPUT_SEQUENCE_LENGTH` ground-truth steps of every particle and
`predicted_rollout` holds the per-step emitted positions in step order. -/
theorem rollout_artifact (model : Nat → List (List Pos) → List Pos)
    (metadata : List (String × String)) (eval_split output_path : String)
    (rollout_refine : Bool) (examples : List Features) (f : Features) :
    ((run model metadata eval_split output_path rollout_refine examples).map Prod.fst
        = (List.range examples.length).map
            (fun i => joinPath output_path (rollout_filename eval_split i)))
    ∧ ((run model metadata eval_split output_path rollout_refine examples).map Prod.snd
        = examples.map (rollout_op model metadata rollout_refine))
    ∧ ((rollout_op model metadata rollout_refine f).map Prod.fst
        = ["initial_positions", "predicted_rollout", "ground_truth_rollout",
           "particle_types", "global_context", "metadata"])
    ∧ (List.lookup "initial_positions" (rollout_op model metadata rollout_refine f)
        = some (JVal.posArr (f.position.map (List.take INPUT_SEQUENCE_LENGTH))))
    ∧ (List.lookup "predicted_rollout" (rollout_op model metadata rollout_refine f)
        = some (JVal.posArr ((List.range (rollout_num_steps f.position)).map
            (emitted model f.position (get_kinematic_mask f.particle_type)
              rollout_refine)))) := by
  refine ⟨?_, runFrom_map_snd model metadata eval_split output_path rollout_refine examples 0,
    rfl, rfl, rfl⟩
  rw [run, runFrom_map_fst model metadata eval_split output_path rollout_refine examples 0]
  refine List.map_congr_left ?_
  intro k _
  rw [Nat.zero_add]

end Test

/-- The observable state of the `Train` loop (train.py 312-314, 357-380,
494-504): whether the optimizer has been created (`optimizer is None` before
the first element), the model parameters, and how many `optimizer.step()`
calls have happened. -/
structure TrainState (P : Type _) where
  optimizer_initialized : Bool
  params : P
  optimizer_steps : Nat

namespace Train

/-- One iteration of the `for features, targets in tqdm(dataset)` loop
(train.py 318-507).  On the first element `optimizer is None` (line 357): the
device is chosen, the optimizer and scheduler are created, the model is moved
to the device (none of which changes parameter values) and the loop
`continue`s (line 379) before any loss or `optimizer.step()`.  On every later
element the loss is computed, `loss.backward()` runs and `optimizer.step()`
updates the parameters (lines 494-504); `update` abstracts that gradient
step. -/
def process_element {P D : Type _} (update : P → D → P)
    (st : TrainState P) (d : D) : TrainState P :=
  if st.optimizer_initialized then
    { st with params := update st.params d, optimizer_steps := st.optimizer_steps + 1 }
  else
    { st with optimizer_initialized := true }

/-- The whole `Train` loop over the dataset elements, from the initial state
`optimizer = None`, freshly built model parameters, zero optimizer steps. -/
def run {P D : Type _} (update : P → D → P) (init : P) (elems : List D) : TrainState P :=
  elems.foldl (process_element update) ⟨false, init, 0⟩

theorem foldl_steps_of_initialized {P D : Type _} (update : P → D → P) :
    ∀ (elems : List D) (st : TrainState P), st.optimizer_initialized = true →
      (elems.foldl (process_element update) st).optimizer_steps
        = st.optimizer_steps + elems.length := by
  intro elems
  induction elems with
  | nil => intro st _; simp
  | cons d rest ih =>
      intro st h
      rw [List.foldl_cons]
      have hst : process_element update st d
          = { st with params := update st.params d,
                      optimizer_steps := st.optimizer_steps + 1 } := by
        rw [process_element, if_pos (by simp [h])]
      rw [hst, ih _ (by simp [h])]
      simp
      omega

end Train

/-- C8: the first dataset element never contributes a gradient update: after
the first element the parameters are unchanged, and after processing `n`
elements exactly `n - 1` (truncated at 0) optimizer steps have occurred. -/
theorem first_element_skipped {P D : Type _} (update : P → D → P) (init : P)
    (elems : List D) :
    (Train.run update init elems).optimizer_steps = elems.length - 1
    ∧ ∀ d : D, (Train.process_element update ⟨false, init, 0⟩ d).params = init := by
  constructor
  · cases elems with
    | nil => rfl
    | cons d rest =>
        rw [Train.run, List.foldl_cons]
        have h0 : Train.process_element update (⟨false, init, 0⟩ : TrainState P) d
            = ⟨true, init, 0⟩ := by
          rw [Train.process_element, if_neg (by simp)]
        rw [h0, Train.foldl_steps_of_initialized update rest _ rfl]
        simp
  · intro d
    rw [Train.process_element, if_neg (by simp)]

/-- Errors with which dataset construction can fail: the `assert` at
train.py line 247 and the `ValueError` at line 250. -/
inductive DSError where
  | assertionError
  | valueError (msg : String)
deriving DecidableEq

/-- `mode.startswith("one_step")` (train.py line 228), written over the
character lists of the strings so it is kernel-computable. -/
def str_startsWith (s pre : String) : Bool :=
  pre.toList.isPrefixOf s.toList

/-- train.py lines 219-252, `input_fn` inside `get_input_fn`: for a
`one_step*` mode a windowed, batch-concatenated pipeline is built; for mode
`rollout` the function first asserts `batch_size == 1` (line 247) and then
maps `prepare_rollout_inputs`; any other mode raises `ValueError` (line 250).
The successfully constructed tf.data pipeline is abstracted as a description
string. -/
def input_fn (batch_size : Nat) (mode split : String) : Except DSError String :=
  if str_startsWith mode "one_step" then
    Except.ok ("one_step dataset for split " ++ split)
  else if mode == "rollout" then
    if batch_size == 1 then Except.ok ("rollout dataset for split " ++ split)
    else Except.error DSError.assertionError
  else Except.error (DSError.valueError ("mode: " ++ mode ++ " not recognized"))

/-- train.py lines 259-264: `GraphDataset.__init__` immediately calls the
input function, so a failure in `input_fn` happens at dataset construction,
before any example is produced. -/
def GraphDataset_init (batch_size : Nat) (mode split : String) : Except DSError String :=
  input_fn batch_size mode split

/-- train.py line 570: `Test` constructs `GraphDataset(mode="rollout",
split=FLAGS.eval_split)` as its very first statement. -/
def Test_dataset_construction (batch_size : Nat) (eval_split : String) :
    Except DSError String :=
  GraphDataset_init batch_size "rollout" eval_split

/-- Which top-level procedure runs. -/
inductive Proc where
  | trainProc
  | testProc
deriving DecidableEq

/-- train.py lines 710-714: `main` runs `Train()` when `FLAGS.mode == "train"`
and `Test()` for every other mode. -/
def main_branch (mode : String) : Proc :=
  if mode == "train" then Proc.trainProc else Proc.testProc

/-- C9: every run in `eval` or `eval_rollout` mode reaches `Test`, whose
dataset construction asserts `batch_size == 1`: with any other batch size it
fails with an `AssertionError` before any example is processed, and with
`batch_size = 1` the assertion never fires and construction succeeds. -/
theorem eval_requires_batch_size_one (mode eval_split : String) (batch_size : Nat)
    (h : mode = "eval" ∨ mode = "eval_rollout") :
    main_branch mode = Proc.testProc
    ∧ (batch_size ≠ 1 →
        Test_dataset_construction batch_size eval_split
          = Except.error DSError.assertionError)
    ∧ (batch_size = 1 →
        Test_dataset_construction batch_size eval_split
          = Except.ok ("rollout dataset for split " ++ eval_split)) := by
  have hb : ∀ b : Nat, b ≠ 1 → (b == 1) = false := by
    intro b hbne
    simpa using hbne
  refine ⟨?_, ?_, ?_⟩
  · rcases h with rfl | rfl <;> rfl
  · intro hne
    rw [Test_dataset_construction, GraphDataset_init, input_fn,
      if_neg (by decide), if_pos (by decide), if_neg (by simp [hb batch_size hne])]
  · intro heq
    subst heq
    rfl

/-- Witness for C9 at mode `eval`, batch size 2. -/
theorem eval_requires_batch_size_one_witness :
    ("eval" = "eval" ∨ "eval" = "eval_rollout")
    ∧ (main_branch "eval" = Proc.testProc
        ∧ ((2 : Nat) ≠ 1 →
            Test_dataset_construction 2 "test" = Except.error DSError.assertionError)
        ∧ ((2 : Nat) = 1 →
            Test_dataset_construction 2 "test"
              = Except.ok ("rollout dataset for split " ++ "test"))) :=
  ⟨Or.inl rfl, eval_requires_batch_size_one "eval" "test" 2 (Or.inl rfl)⟩

/-- The command-line flags read by the claims (train.py 49-78). -/
structure Flags where
  mode : String
  eval_split : String
  batch_size : Nat
  output_path : String
  rollout_refine : Bool

/-- The observable outcome of `main`: the final training state, or the
rollout files written by `Test` (an `AssertionError` from the dataset
construction if the batch size is not 1). -/
inductive RunResult (P : Type _) where
  | trainRes (st : TrainState P)
  | testRes (files : Except DSError (List (String × List (String × JVal))))

/-- The whole `Test` procedure: dataset construction (train.py 570) followed
by the per-trajectory rollout loop; it reads `eval_split`, `batch_size`,
`output_path` and `rollout_refine` from the flags, never `mode`. -/
def Test_full (model : Nat → List (List Pos) → List Pos)
    (metadata : List (String × String)) (fl : Flags) (examples : List Features) :
    Except DSError (List (String × List (String × JVal))) :=
  (Test_dataset_construction fl.batch_size fl.eval_split).map
    (fun _ => Test.run model metadata fl.eval_split fl.output_path fl.rollout_refine examples)

/-- train.py lines 710-714: `main`. -/
def main_run {P D : Type _} (fl : Flags) (update : P → D → P) (init : P)
    (train_elems : List D) (model : Nat → List (List Pos) → List Pos)
    (metadata : List (String × String)) (examples : List Features) : RunResult P :=
  if fl.mode == "train" then RunResult.trainRes (Train.run update init train_elems)
  else RunResult.testRes (Test_full model metadata fl examples)

/-- C10: `main` dispatches mode `train` to `Train` and every other mode to
`Test`; with all other flags and inputs equal, a run with mode `eval` and a
run with mode `eval_rollout` execute the same rollout-evaluation procedure
and produce the same outputs. -/
theorem eval_modes_equivalent {P D : Type _} (fl : Flags) (update : P → D → P)
    (init : P) (train_elems : List D) (model : Nat → List (List Pos) → List Pos)
    (metadata : List (String × String)) (examples : List Features) :
    main_run { fl with mode := "eval" } update init train_elems model metadata examples
      = main_run { fl with mode := "eval_rollout" } update init train_elems model
          metadata examples := by
  have h1 : (({ fl with mode := "eval" } : Flags).mode == "train") = false := rfl
  have h2 : (({ fl with mode := "eval_rollout" } : Flags).mode == "train") = false := rfl
  rw [main_run, main_run, if_neg (by simp [h1]), if_neg (by simp [h2])]
  rfl

end VFGN
